import Mathlib

/-!
Verification of the tasklog self-update subsystem.

Shallow embedding of:
- `internal/updater/version.go` (semantic-version model, backed by the
  hashicorp/go-version dependency whose comparison semantics are modelled
  per the spec, section 4.1);
- `internal/github/client.go` (release source);
- `internal/updater/updater.go` (upgrade orchestrator).

I/O is made explicit: the remote service is a value describing what the
network would answer, the filesystem is an association list from paths to
file data, and each operation returns its outcome together with the effects
it performed (network calls issued, files written).
-/

namespace Tasklog

/-- Does `hay` start with `needle`? -/
def startsWithList : List Char → List Char → Bool
  | _, [] => true
  | [], _ :: _ => false
  | a :: as, b :: bs => a = b && startsWithList as bs

/-- Does `needle` occur contiguously inside the second list? -/
def containsList (needle : List Char) : List Char → Bool
  | [] => startsWithList [] needle
  | c :: t => startsWithList (c :: t) needle || containsList needle t

/-- Go's strings.Contains: is `sub` a contiguous substring of `s`? -/
def strContains (s sub : String) : Bool :=
  containsList sub.toList s.toList

/-- Split on a single-character separator (all separators this code uses
are single characters); same semantics as Go's strings.Split. -/
def splitOnCharAux (sep : Char) : List Char → List Char → List String
  | [], acc => [String.mk acc.reverse]
  | c :: cs, acc =>
    if c = sep then String.mk acc.reverse :: splitOnCharAux sep cs []
    else splitOnCharAux sep cs (c :: acc)

/-- `splitOnChar s sep`: the pieces of `s` between occurrences of `sep`. -/
def splitOnChar (s : String) (sep : Char) : List String :=
  splitOnCharAux sep s.toList []

/-- Join pieces back with a separator (strings.Join). -/
def joinSep (sep : String) : List String → String
  | [] => ""
  | [x] => x
  | x :: rest => x ++ sep ++ joinSep sep rest

/-- An ASCII whitespace character (the checksum files this code trims hold
ASCII hex digests). -/
def isSpaceChar (c : Char) : Bool :=
  c = ' ' || c = '\t' || c = '\n' || c = '\r'

/-- Go's strings.TrimSpace. -/
def strTrim (s : String) : String :=
  String.mk (((s.toList.dropWhile isSpaceChar).reverse.dropWhile isSpaceChar).reverse)

/-- Decimal digits to a number (strconv.Atoi on `[0-9]+`; Go's int64
overflow bound is not modelled, the claims never reach it). -/
def strToNat? (s : String) : Option Nat :=
  if s.toList ≠ [] ∧ s.toList.all Char.isDigit then
    some (s.toList.foldl (fun acc c => acc * 10 + (c.toNat - '0'.toNat)) 0)
  else none

/-! ## Version model (internal/updater/version.go) -/

/-- A parsed semantic version, as kept by the hashicorp/go-version value the
repository wraps: three numeric core segments, the dot-split pre-release
identifiers (empty list = stable), and build metadata (excluded from
comparison). -/
structure SemVer where
  major : Nat
  minor : Nat
  patch : Nat
  pre : List String
  meta : String
deriving DecidableEq, Repr

/-- One pre-release / metadata identifier character per go-version's
version regexp: `[0-9A-Za-z\-~]`. -/
def isIdentChar (c : Char) : Bool :=
  c.isAlphanum || c = '-' || c = '~'

/-- A non-empty identifier made of identifier characters. -/
def isIdent (s : String) : Bool :=
  s ≠ "" && s.toList.all isIdentChar

/-- Split a candidate pre-release string on dots and validate each
identifier (go-version: `[0-9A-Za-z\-~]+(\.[0-9A-Za-z\-~]+)*`). -/
def parsePre (s : String) : Option (List String) :=
  let ps := splitOnChar s '.'
  if ps.all isIdent then some ps else none

/-- Validate dotted build metadata. -/
def isDottedIdents (s : String) : Bool :=
  (splitOnChar s '.').all isIdent

/-- Split trailing `+metadata` off a version string; at most one `+` is
accepted, and the metadata must be well-formed. -/
def splitMeta (s : String) : Option (String × String) :=
  match splitOnChar s '+' with
  | [b] => some (b, "")
  | [b, m] => if isDottedIdents m then some (b, m) else none
  | _ => none

/-- Split a `core[-prerelease]` body at the first dash; the pre-release part
(which may itself contain dashes) is validated and dot-split. -/
def splitPre (s : String) : Option (String × List String) :=
  match splitOnChar s '-' with
  | [] => none
  | [b] => some (b, [])
  | b :: rest =>
    (parsePre (joinSep "-" rest)).map (fun p => (b, p))

/-- Parse the numeric core `<uint>[.<uint>[.<uint>]]`; missing minor/patch
segments default to 0 (spec, section 4.1: "missing the patch segment is
tolerated and defaulted to 0"). -/
def parseCoreSegs (s : String) : Option (Nat × Nat × Nat) :=
  match (splitOnChar s '.').mapM strToNat? with
  | some [a] => some (a, 0, 0)
  | some [a, b] => some (a, b, 0)
  | some [a, b, c] => some (a, b, c)
  | _ => none

/-- Modelled from the spec (section 4.1) and go-version's `NewVersion`:
parse a normalized `<core>[-pre][+meta]` string. -/
def parseVersionCore (s : String) : Option SemVer := do
  let (body, meta) ← splitMeta s
  let (core, pre) ← splitPre body
  let (a, b, c) ← parseCoreSegs core
  pure ⟨a, b, c, pre, meta⟩

/-- `ParseVersion` from internal/updater/version.go: strip an optional
leading "v", map the sentinel inputs "dev" and "" to "0.0.0-dev", then
parse.  `none` models the Go error return. -/
def ParseVersion (v : String) : Option SemVer :=
  let v1 := match v.toList with
    | 'v' :: rest => String.mk rest
    | _ => v
  let v2 := if v1 = "dev" ∨ v1 = "" then "0.0.0-dev" else v1
  parseVersionCore v2

/-- The dot-joined pre-release string, as returned by `Version.Prerelease`
("" = stable). -/
def preString (v : SemVer) : String :=
  joinSep "." v.pre

/-- `Version.String`: `major.minor.patch[-pre][+meta]`. -/
def verString (v : SemVer) : String :=
  toString v.major ++ "." ++ toString v.minor ++ "." ++ toString v.patch
    ++ (if v.pre = [] then "" else "-" ++ preString v)
    ++ (if v.meta = "" then "" else "+" ++ v.meta)

/-- Three-way comparison on naturals (sub-step of the segment compare). -/
def compareNat (a b : Nat) : Ordering :=
  if a < b then .lt else if b < a then .gt else .eq

/-- Does the identifier parse as a number (go-version: strconv.ParseInt
succeeds)? -/
def isNumericIdent (s : String) : Bool :=
  (strToNat? s).isSome

/-- Modelled from the spec (section 4.1) after go-version's `comparePart`:
compare two pre-release identifiers — numeric identifiers compare as
numbers and rank below alphanumeric ones, a missing (empty) identifier is
resolved against the other side. -/
def comparePart (a b : String) : Ordering :=
  if a = b then .eq
  else if a = "" then (if isNumericIdent b then .lt else .gt)
  else if b = "" then (if isNumericIdent a then .gt else .lt)
  else if isNumericIdent a && !(isNumericIdent b) then .lt
  else if !(isNumericIdent a) && isNumericIdent b then .gt
  else if !(isNumericIdent a) && !(isNumericIdent b) then
    (if b < a then .gt else .lt)
  else
    (if (strToNat? b).getD 0 < (strToNat? a).getD 0 then .gt else .lt)

/-- Leftover identifiers of the longer right-hand list, each compared
against the empty padding identifier. -/
def comparePadRight : List String → Ordering
  | [] => .eq
  | y :: ys =>
    match comparePart "" y with
    | .eq => comparePadRight ys
    | o => o

/-- Leftover identifiers of the longer left-hand list, each compared
against the empty padding identifier. -/
def comparePadLeft : List String → Ordering
  | [] => .eq
  | x :: xs =>
    match comparePart x "" with
    | .eq => comparePadLeft xs
    | o => o

/-- Modelled from the spec (section 4.1) after go-version's
`comparePrereleases`: walk both identifier lists, padding the shorter one
with empty identifiers, and return the first non-equal part comparison. -/
def comparePreLists : List String → List String → Ordering
  | [], ys => comparePadRight ys
  | x :: xs, [] =>
    match comparePart x "" with
    | .eq => comparePadLeft xs
    | o => o
  | x :: xs, y :: ys =>
    match comparePart x y with
    | .eq => comparePreLists xs ys
    | o => o

/-- Modelled from the spec (section 4.1) after go-version's `Compare`:
numeric core segments first; on a tie a stable version outranks any
pre-release, and two pre-releases are compared identifier by identifier.
Build metadata never participates. -/
def compareVer (a b : SemVer) : Ordering :=
  match compareNat a.major b.major with
  | .eq =>
    match compareNat a.minor b.minor with
    | .eq =>
      match compareNat a.patch b.patch with
      | .eq =>
        match a.pre, b.pre with
        | [], [] => .eq
        | [], _ :: _ => .gt
        | _ :: _, [] => .lt
        | _, _ => comparePreLists a.pre b.pre
      | o => o
    | o => o
  | o => o

/-- `Version.IsNewerThan` (go-version `GreaterThan`). -/
def IsNewerThan (v other : SemVer) : Bool :=
  compareVer v other = .gt

/-- `Version.Equals` (go-version `Equal`): comparison ignores build
metadata. -/
def verEquals (v other : SemVer) : Bool :=
  compareVer v other = .eq

/-! ## Release source (internal/github/client.go) -/

/-- A release asset: `{name, browser_download_url}`. -/
structure Asset where
  name : String
  browserDownloadURL : String
deriving DecidableEq, Repr

/-- A release descriptor as decoded from the service's JSON:
`{tag_name, name, body, prerelease, draft, assets}`. -/
structure Release where
  tagName : String
  name : String
  body : String
  prerelease : Bool
  draft : Bool
  assets : List Asset
deriving DecidableEq, Repr

/-- `matchesChannel` from client.go: strip one leading 'v' from the tag,
then test whether it contains `-<channel>` as a substring. -/
def matchesChannel (tagName channel : String) : Bool :=
  let t := match tagName.toList with
    | 'v' :: rest => String.mk rest
    | _ => tagName
  strContains t ("-" ++ channel)

/-- The release-scanning loop of `Client.GetLatestPreRelease`, over the
decoded newest-first release list: skip drafts; with an empty channel skip
pre-releases and return the first remaining entry; with a non-empty channel
return the first pre-release whose tag matches the channel. -/
def scanReleases (channel : String) : List Release → Option Release
  | [] => none
  | r :: rest =>
    if r.draft then scanReleases channel rest
    else if channel = "" then
      (if r.prerelease then scanReleases channel rest else some r)
    else if r.prerelease && matchesChannel r.tagName channel then some r
    else scanReleases channel rest

/-- What the network would answer: whether the HTTP layer succeeds, and the
service's newest-first release list. -/
structure RemoteEnv where
  reachable : Bool
  releases : List Release
deriving Repr

/-- `Client.GetLatestPreRelease`: fetch the release list (a network call
that can fail), scan it, and report a `SourceError` when nothing matched. -/
def GetLatestPreRelease (remote : RemoteEnv) (channel : String) : Except String Release :=
  if !remote.reachable then .error "HTTP request failed"
  else
    match scanReleases channel remote.releases with
    | some r => .ok r
    | none => .error ("no release found for channel: " ++ channel)

/-- `Client.GetLatestRelease` queries the service's latest-release
endpoint.  Modelled from the spec (section 4.2 `latestStable`, the
selection being server-side): the single newest non-pre-release, non-draft
release, i.e. the first such entry of the newest-first list. -/
def GetLatestRelease (remote : RemoteEnv) : Except String Release :=
  if !remote.reachable then .error "HTTP request failed"
  else
    match remote.releases.find? (fun r => !r.draft && !r.prerelease) with
    | some r => .ok r
    | none => .error "GitHub API returned status 404"

/-- `Client.GetReleaseURL`: pure formatting. -/
def GetReleaseURL (owner repo tagName : String) : String :=
  "https://github.com/" ++ owner ++ "/" ++ repo ++ "/releases/tag/" ++ tagName

/-! ## Upgrade orchestrator (updater.go) -/

/-- `getAssetNameForPlatform`: platform key from the running OS and the
normalized architecture (`amd64` → `x86_64`, `386` → `i386`). -/
def getAssetNameForPlatform (goos goarch : String) : String :=
  let arch := if goarch = "amd64" then "x86_64"
    else if goarch = "386" then "i386"
    else goarch
  goos ++ "_" ++ arch

/-- `Updater.determineChannel`: an explicitly configured non-"stable"
channel wins verbatim; otherwise, when the current version carries a
pre-release string, its first dot-separated segment is kept when it is a
known channel; otherwise stable (""). -/
def determineChannel (current : SemVer) (configChannel : String) : String :=
  if configChannel ≠ "" ∧ configChannel ≠ "stable" then configChannel
  else if preString current ≠ "" then
    match splitOnChar (preString current) '.' with
    | ch :: _ => if ch = "alpha" ∨ ch = "beta" ∨ ch = "rc" then ch else ""
    | [] => ""
  else ""

/-- `Updater.shouldCheckForUpdate`: check when the marker file is absent,
or when its age exceeds the configured interval.  `markerMTime` is the
marker's modification time (`none` models the failing stat). -/
def shouldCheckForUpdate (markerMTime : Option Nat) (now checkInterval : Nat) : Bool :=
  match markerMTime with
  | none => true
  | some t => now - t > checkInterval

/-- `UpdateInfo` from updater.go. -/
structure UpdateInfo where
  currentVersion : String
  latestVersion : String
  releaseURL : String
  releaseNotes : String
  downloadURL : String
  assetName : String
  isPreRelease : Bool
deriving DecidableEq, Repr

/-- The Go `(*UpdateInfo, error)` pair: nil-nil, a found update, or an
error. -/
inductive CheckOutcome where
  | noUpdate : CheckOutcome
  | updateAvailable : UpdateInfo → CheckOutcome
  | checkError : String → CheckOutcome
deriving DecidableEq, Repr

/-- Outcome of one `CheckForUpdate` call together with its observable
effects: how many network requests were issued, and whether the throttle
timestamp file was written (the only filesystem write the function
performs, via `updateCacheTimestamp`). -/
structure CheckResult where
  outcome : CheckOutcome
  networkCalls : Nat
  timestampWritten : Bool
deriving DecidableEq, Repr

/-- The whole world `CheckForUpdate` reads: the remote service, the
throttle marker's modification time, the clock, the configured interval,
the platform identifiers, and the repository coordinates. -/
structure CheckEnv where
  remote : RemoteEnv
  markerMTime : Option Nat
  now : Nat
  checkInterval : Nat
  goos : String
  goarch : String
  owner : String
  repo : String
deriving Repr

/-- The fetch step of `CheckForUpdate`: latest stable for the empty
channel, channel scan otherwise. -/
def fetchRelease (remote : RemoteEnv) (effectiveChannel : String) : Except String Release :=
  if effectiveChannel = "" then GetLatestRelease remote
  else GetLatestPreRelease remote effectiveChannel

/-- `Updater.CheckForUpdate`, step for step: throttle gate; parse the
current version (an unparsable string returns nil-nil); resolve the
channel; fetch (the one network call); on fetch success write the throttle
timestamp; parse the fetched tag; compare; scan assets for the platform
key; report. -/
def CheckForUpdate (env : CheckEnv) (currentVersion channel : String) : CheckResult :=
  if !shouldCheckForUpdate env.markerMTime env.now env.checkInterval then
    ⟨.noUpdate, 0, false⟩
  else
    match ParseVersion currentVersion with
    | none => ⟨.noUpdate, 0, false⟩
    | some current =>
      let effectiveChannel := determineChannel current channel
      match fetchRelease env.remote effectiveChannel with
      | .error e => ⟨.checkError ("failed to fetch latest release: " ++ e), 1, false⟩
      | .ok release =>
        match ParseVersion release.tagName with
        | none =>
          ⟨.checkError ("failed to parse latest version " ++ release.tagName), 1, true⟩
        | some latest =>
          if !IsNewerThan latest current then ⟨.noUpdate, 1, true⟩
          else
            let assetName := getAssetNameForPlatform env.goos env.goarch
            match release.assets.find? (fun a => strContains a.name assetName) with
            | none =>
              ⟨.checkError ("no binary found for platform " ++ env.goos ++ "/" ++ env.goarch),
                1, true⟩
            | some asset =>
              ⟨.updateAvailable {
                  currentVersion := verString current
                  latestVersion := verString latest
                  releaseURL := GetReleaseURL env.owner env.repo release.tagName
                  releaseNotes := release.body
                  downloadURL := asset.browserDownloadURL
                  assetName := asset.name
                  isPreRelease := release.prerelease }, 1, true⟩

/-! ## Filesystem model and the upgrade execution path -/

/-- A regular file: its byte content and its permission bits. -/
structure FileData where
  content : String
  perm : Nat
deriving DecidableEq, Repr

/-- The filesystem as an association list from paths to files (first match
wins). -/
abbrev FS := List (String × FileData)

/-- Look a path up. -/
def fsGet : FS → String → Option FileData
  | [], _ => none
  | (p, f) :: rest, q => if p = q then some f else fsGet rest q

/-- Delete a path (os.Remove). -/
def fsRemove : FS → String → FS
  | [], _ => []
  | (p, f) :: rest, q => if p = q then fsRemove rest q else (p, f) :: fsRemove rest q

/-- Create or overwrite a path. -/
def fsSet (fs : FS) (p : String) (f : FileData) : FS :=
  (p, f) :: fsRemove fs p

/-- Everything `downloadAndReplace` consumes from the outside world, with
each fallible OS / network step made an explicit success flag:
`execPath`/`resolvedPath` model `os.Executable` and `filepath.EvalSymlinks`
(`none` = the call errors), `writePermOK` the probe-file check,
`tmpPath` the name `os.CreateTemp` picks, `downloadOK`/`downloadedContent`
the asset download, `checksumDownloadOK`/`checksumContent` the checksum
download, `hash` the SHA-256 function, `chmodOK` the chmod, `copyOK` the
backup copy, and `renameOK` the final `os.Rename`. -/
structure UpgradeEnv where
  execPath : Option String
  resolvedPath : Option String
  writePermOK : Bool
  tmpPath : String
  downloadOK : Bool
  downloadedContent : String
  checksumDownloadOK : Bool
  checksumContent : String
  hash : String → String
  chmodOK : Bool
  copyOK : Bool
  renameOK : Bool

/-- The Go `(backupPath string, err error)` return of the upgrade path,
together with the resulting filesystem and whether the checksum
verification branch was actually executed. -/
structure UpgradeResult where
  backupPath : String
  err : Option String
  fs : FS
  checksumChecked : Bool

/-- `Updater.verifyChecksum`, reduced to its decision: download the
checksum file (into a temp file that is always removed again), trim it,
recompute the SHA-256 of the downloaded file, and compare.  `none` =
verification passed. -/
def verifyChecksum (env : UpgradeEnv) : Option String :=
  if !env.checksumDownloadOK then some "failed to download checksum"
  else if env.hash env.downloadedContent ≠ strTrim env.checksumContent then
    some "checksum mismatch"
  else none

/-- The tail of `downloadAndReplace` after the (possible) checksum step:
chmod the temp file, copy the live binary to `<binary>.backup` preserving
content and permission bits, and atomically rename the temp file onto the
binary path.  The deferred `os.Remove(tmpPath)` fires on every exit. -/
def replaceBinary (env : UpgradeEnv) (binaryPath : String) (fs : FS)
    (checked : Bool) : UpgradeResult :=
  if !env.chmodOK then
    ⟨"", some "failed to make binary executable", fsRemove fs env.tmpPath, checked⟩
  else
    let fs3 := fsSet fs env.tmpPath ⟨env.downloadedContent, 0o755⟩
    let backupPath := binaryPath ++ ".backup"
    match fsGet fs3 binaryPath with
    | none =>
      ⟨"", some "failed to create backup", fsRemove fs3 env.tmpPath, checked⟩
    | some orig =>
      if !env.copyOK then
        ⟨"", some "failed to create backup", fsRemove fs3 env.tmpPath, checked⟩
      else
        let fs4 := fsSet fs3 backupPath ⟨orig.content, orig.perm⟩
        if !env.renameOK then
          ⟨backupPath, some "failed to replace binary", fsRemove fs4 env.tmpPath, checked⟩
        else
          ⟨backupPath, none,
            fsSet (fsRemove fs4 env.tmpPath) binaryPath ⟨env.downloadedContent, 0o755⟩,
            checked⟩

/-- `Updater.downloadAndReplace`: resolve the live binary path, probe write
permission, download to a temp file, verify the checksum when a
`checksumURL` is supplied, then back up and replace.  The write-permission
probe file is created and deleted again, so it leaves no trace in `fs`. -/
def downloadAndReplace (env : UpgradeEnv) (downloadURL checksumURL : String)
    (fs : FS) : UpgradeResult :=
  match env.execPath with
  | none => ⟨"", some "failed to get current binary path", fs, false⟩
  | some _ =>
    match env.resolvedPath with
    | none => ⟨"", some "failed to resolve binary path", fs, false⟩
    | some binaryPath =>
      if !env.writePermOK then
        ⟨"", some "insufficient permissions to update binary", fs, false⟩
      else
        let fs1 := fsSet fs env.tmpPath ⟨"", 0o600⟩
        if !env.downloadOK then
          ⟨"", some ("failed to download binary from " ++ downloadURL),
            fsRemove fs1 env.tmpPath, false⟩
        else
          let fs2 := fsSet fs1 env.tmpPath ⟨env.downloadedContent, 0o600⟩
          if checksumURL ≠ "" then
            match verifyChecksum env with
            | some e =>
              ⟨"", some ("checksum verification failed: " ++ e),
                fsRemove fs2 env.tmpPath, true⟩
            | none => replaceBinary env binaryPath fs2 true
          else replaceBinary env binaryPath fs2 false

/-- `Updater.PerformUpgrade`: show the summary, ask the injected `confirm`
callback, and on consent run `downloadAndReplace` with the update's
download URL and an empty checksum URL. -/
def PerformUpgrade (env : UpgradeEnv) (info : UpdateInfo) (confirmed : Bool)
    (fs : FS) : UpgradeResult :=
  if !confirmed then ⟨"", some "upgrade cancelled by user", fs, false⟩
  else downloadAndReplace env info.downloadURL "" fs

/-! ## Supporting lemmas -/

theorem fsGet_fsRemove_ne (fs : FS) (p q : String) (h : q ≠ p) :
    fsGet (fsRemove fs p) q = fsGet fs q := by
  induction fs with
  | nil => rfl
  | cons e rest ih =>
    obtain ⟨ep, ef⟩ := e
    simp only [fsRemove, fsGet]
    by_cases he : ep = p
    · rw [if_pos he, ih, if_neg (fun hv : ep = q => h (hv ▸ he))]
    · rw [if_neg he]
      simp only [fsGet]
      rw [ih]

theorem fsGet_fsSet_ne (fs : FS) (p q : String) (f : FileData) (h : q ≠ p) :
    fsGet (fsSet fs p f) q = fsGet fs q := by
  simp only [fsSet, fsGet]
  rw [if_neg (fun hv => h hv.symm)]
  exact fsGet_fsRemove_ne fs p q h

theorem fsGet_fsSet_eq (fs : FS) (p : String) (f : FileData) :
    fsGet (fsSet fs p f) p = some f := by
  simp [fsSet, fsGet]

theorem compareNat_self (a : Nat) : compareNat a a = .eq := by
  simp [compareNat]

theorem comparePart_self (s : String) : comparePart s s = .eq := by
  simp [comparePart]

theorem comparePreLists_self (l : List String) : comparePreLists l l = .eq := by
  induction l with
  | nil => rfl
  | cons x xs ih => simp [comparePreLists, comparePart_self, ih]

/-- `scanReleases` returns exactly the first entry satisfying: not a draft,
and (for the empty channel) not a pre-release, or (for a non-empty channel)
a pre-release whose tag matches the channel. -/
theorem scanReleases_eq_find (channel : String) (rs : List Release) :
    scanReleases channel rs =
      (if channel = "" then
        rs.find? (fun r => !r.draft && !r.prerelease)
      else
        rs.find? (fun r => !r.draft && (r.prerelease && matchesChannel r.tagName channel))) := by
  induction rs with
  | nil => by_cases h : channel = "" <;> simp [scanReleases, h]
  | cons r rest ih =>
    by_cases h : channel = ""
    · subst h
      simp only [if_pos rfl] at ih ⊢
      by_cases hd : r.draft
      · simp [scanReleases, List.find?_cons, hd, ih]
      · by_cases hp : r.prerelease <;> simp [scanReleases, List.find?_cons, hd, hp, ih]
    · simp only [if_neg h] at ih ⊢
      by_cases hd : r.draft
      · simp [scanReleases, List.find?_cons, hd, h, ih]
      · by_cases hp : r.prerelease
        · by_cases hm : matchesChannel r.tagName channel <;>
            simp [scanReleases, List.find?_cons, hd, h, hp, hm, ih]
        · simp [scanReleases, List.find?_cons, hd, h, hp, ih]

/-- `replaceBinary` only threads the checksum flag through. -/
theorem replaceBinary_checked (env : UpgradeEnv) (bp : String) (fs : FS) (c : Bool) :
    (replaceBinary env bp fs c).checksumChecked = c := by
  by_cases hch : env.chmodOK <;>
    by_cases hcp : env.copyOK <;>
      by_cases hrn : env.renameOK <;>
        cases hg : fsGet (fsSet fs env.tmpPath ⟨env.downloadedContent, 0o755⟩) bp <;>
          simp [replaceBinary, hch, hcp, hrn, hg]

/-! ## Claims -/

/-- A stable release v1.0.0 with a Linux x86_64 binary asset, as the remote
would serve it. -/
def stableRelease : Release :=
  ⟨"v1.0.0", "v1.0.0", "notes", false, false,
    [⟨"tasklog_1.0.0_linux_x86_64", "https://dl/tasklog"⟩]⟩

/-- A world with no throttle marker, a reachable remote serving
`stableRelease`, on linux/amd64. -/
def devCheckEnv : CheckEnv :=
  ⟨⟨true, [stableRelease]⟩, none, 0, 86400, "linux", "amd64", "owner", "repo"⟩

/-- C1: the claim says a "dev" (or empty) current version short-circuits
CheckForUpdate to "no update" with no error and no release fetch.  The
code does the opposite: ParseVersion maps "dev" to the successfully parsed
0.0.0-dev, so with the throttle open and a stable release v1.0.0 available
the call issues the fetch (one network call) and reports an available
update instead of returning "no update". -/
theorem c1_dev_build_gets_nagged :
    CheckForUpdate devCheckEnv "dev" "" =
      ⟨.updateAvailable ⟨"0.0.0-dev", "1.0.0",
          "https://github.com/owner/repo/releases/tag/v1.0.0", "notes",
          "https://dl/tasklog", "tasklog_1.0.0_linux_x86_64", false⟩, 1, true⟩
    ∧ (ParseVersion "dev").isSome = true
    ∧ CheckForUpdate devCheckEnv "" "" = CheckForUpdate devCheckEnv "dev" "" := by
  refine ⟨by decide, by decide, by decide⟩

/-- A world whose throttle is open but whose network is down: the release
fetch fails. -/
def fetchFailEnv : CheckEnv :=
  ⟨⟨false, []⟩, none, 0, 86400, "linux", "amd64", "o", "r"⟩

/-- C2 counterexample: with the throttle open and a parsable current
version "1.0.0", a failing release fetch leaves the throttle timestamp
unwritten — the update happens after the fetch-error early return, not
"regardless of whether the subsequent release fetch succeeds or fails". -/
theorem c2_counterexample :
    shouldCheckForUpdate fetchFailEnv.markerMTime fetchFailEnv.now fetchFailEnv.checkInterval = true
    ∧ (ParseVersion "1.0.0").isSome = true
    ∧ (CheckForUpdate fetchFailEnv "1.0.0" "").timestampWritten = false := by
  refine ⟨by decide, by decide, by decide⟩

/-- Is an Except a success? -/
def exceptIsOk {ε α : Type} : Except ε α → Bool
  | .ok _ => true
  | .error _ => false

/-- C2 (amended): on an allowed check attempt (throttle permits, current
version parses) the persisted last-check timestamp is written exactly when
the release fetch succeeds; when the fetch fails, no timestamp write
happens. -/
theorem c2_timestamp_written_iff_fetch_ok (env : CheckEnv) (cur ch : String)
    (current : SemVer)
    (h1 : shouldCheckForUpdate env.markerMTime env.now env.checkInterval = true)
    (h2 : ParseVersion cur = some current) :
    (CheckForUpdate env cur ch).timestampWritten =
      exceptIsOk (fetchRelease env.remote (determineChannel current ch)) := by
  unfold CheckForUpdate
  rw [h1, h2]
  simp only [Bool.not_true, Bool.false_eq_true, if_false]
  cases hf : fetchRelease env.remote (determineChannel current ch) with
  | error e => simp [exceptIsOk]
  | ok release =>
    cases hp : ParseVersion release.tagName with
    | none => simp [hp, exceptIsOk]
    | some latest =>
      cases hn : IsNewerThan latest current with
      | false => simp [hp, hn, exceptIsOk]
      | true =>
        cases hfind : release.assets.find?
            (fun a => strContains a.name (getAssetNameForPlatform env.goos env.goarch)) <;>
          simp [hp, hn, hfind, exceptIsOk]

/-- A world with the throttle open and a reachable remote serving
`stableRelease`. -/
def fetchOkEnv : CheckEnv :=
  ⟨⟨true, [stableRelease]⟩, none, 0, 86400, "linux", "amd64", "o", "r"⟩

/-- Closed instance of C2 (amended): with a reachable remote the allowed
check writes the timestamp (the fetch succeeded). -/
theorem c2_timestamp_written_iff_fetch_ok_witness :
    (CheckForUpdate fetchOkEnv "1.0.0" "").timestampWritten =
      exceptIsOk (fetchRelease fetchOkEnv.remote (determineChannel ⟨1, 0, 0, [], ""⟩ "")) :=
  c2_timestamp_written_iff_fetch_ok fetchOkEnv "1.0.0" "" ⟨1, 0, 0, [], ""⟩
    (by decide) (by decide)

/-- The claim's reading of latestForChannel, for comparison: first
non-draft entry whose tag (after stripping a leading "v") contains
`-<channel>`, with no requirement on the pre-release flag; first non-draft
non-pre-release entry for the empty channel. -/
def claimLatestForChannel (rs : List Release) (channel : String) : Option Release :=
  if channel = "" then rs.find? (fun r => !r.draft && !r.prerelease)
  else rs.find? (fun r => !r.draft && matchesChannel r.tagName channel)

/-- A non-draft release that is NOT flagged pre-release but whose tag
matches channel "alpha" by substring. -/
def alphaTaggedStable : Release := ⟨"v1.0.0-alpha.1", "", "", false, false, []⟩

/-- C3 counterexample: the claim's rule returns the non-draft release
tagged v1.0.0-alpha.1 for channel "alpha", but the code skips it because
its pre-release flag is false, and reports the no-release error
instead. -/
theorem c3_counterexample :
    claimLatestForChannel [alphaTaggedStable] "alpha" = some alphaTaggedStable
    ∧ GetLatestPreRelease ⟨true, [alphaTaggedStable]⟩ "alpha" =
        .error "no release found for channel: alpha" := by
  refine ⟨by decide, rfl⟩

/-- latestForChannel as amended: for a non-empty channel the first
non-draft entry that is flagged pre-release AND whose tag matches
`-<channel>` after stripping a leading "v"; for the empty channel the
first non-draft non-pre-release entry. -/
def specLatestForChannel (rs : List Release) (channel : String) : Option Release :=
  if channel = "" then rs.find? (fun r => !r.draft && !r.prerelease)
  else rs.find? (fun r => !r.draft && (r.prerelease && matchesChannel r.tagName channel))

/-- C3 (amended): over a reachable remote, GetLatestPreRelease returns
exactly the first non-draft release that is flagged pre-release and whose
tag (after stripping a leading "v") contains `-<channel>` — the first
non-draft non-pre-release entry when the channel is empty — and a
SourceError when no such entry exists; drafts are never returned. -/
theorem c3_latest_for_channel (remote : RemoteEnv) (channel : String)
    (h : remote.reachable = true) :
    GetLatestPreRelease remote channel =
      (match specLatestForChannel remote.releases channel with
        | some r => .ok r
        | none => .error ("no release found for channel: " ++ channel)) := by
  unfold GetLatestPreRelease specLatestForChannel
  rw [h]
  simp only [Bool.not_true, Bool.false_eq_true, if_false]
  rw [scanReleases_eq_find]

/-- A draft release that would match channel "beta", ahead of a live
matching pre-release. -/
def draftBetaRelease : Release := ⟨"v1.1.0-beta.1", "", "", true, true, []⟩

/-- A live (non-draft) pre-release matching channel "beta". -/
def liveBetaRelease : Release := ⟨"v1.0.0-beta.2", "", "", true, false, []⟩

/-- Closed instance of C3 (amended): the draft is skipped and the first
live matching pre-release is returned. -/
theorem c3_latest_for_channel_witness :
    GetLatestPreRelease ⟨true, [draftBetaRelease, liveBetaRelease]⟩ "beta" =
      (match specLatestForChannel [draftBetaRelease, liveBetaRelease] "beta" with
        | some r => .ok r
        | none => .error ("no release found for channel: " ++ "beta")) :=
  c3_latest_for_channel ⟨true, [draftBetaRelease, liveBetaRelease]⟩ "beta" rfl

/-- A strictly newer remote release whose only asset is for another
platform. -/
def noAssetRelease : Release :=
  ⟨"v2.0.0", "", "", false, false, [⟨"tasklog_2.0.0_windows_arm64", "u"⟩]⟩

/-- A world with an expired throttle marker and a reachable remote serving
only `noAssetRelease`, on linux/amd64. -/
def noAssetEnv : CheckEnv :=
  ⟨⟨true, [noAssetRelease]⟩, some 0, 100, 10, "linux", "amd64", "o", "r"⟩

/-- C4 counterexample: when asset resolution finds nothing for the
platform the call does return the "no binary" error, but the operation has
already written the throttle timestamp file — a filesystem write, so "the
whole operation performs no filesystem writes" fails. -/
theorem c4_counterexample :
    (CheckForUpdate noAssetEnv "1.0.0" "").outcome =
      .checkError "no binary found for platform linux/amd64"
    ∧ (CheckForUpdate noAssetEnv "1.0.0" "").timestampWritten = true := by
  refine ⟨by decide, by decide⟩

/-- C4 (amended): during a permitted check with a strictly newer fetched
release, if no asset name contains the platform key, CheckForUpdate
returns the "no binary found for platform" error after exactly one network
call, and its only filesystem write is the already-performed throttle
timestamp update — no temp file, backup or binary write happens (the
orchestrator's check path writes nothing but the marker). -/
theorem c4_no_asset_error (env : CheckEnv) (cur ch : String)
    (current latest : SemVer) (release : Release)
    (h1 : shouldCheckForUpdate env.markerMTime env.now env.checkInterval = true)
    (h2 : ParseVersion cur = some current)
    (h3 : fetchRelease env.remote (determineChannel current ch) = .ok release)
    (h4 : ParseVersion release.tagName = some latest)
    (h5 : IsNewerThan latest current = true)
    (h6 : release.assets.find?
        (fun a => strContains a.name (getAssetNameForPlatform env.goos env.goarch)) = none) :
    CheckForUpdate env cur ch =
      ⟨.checkError ("no binary found for platform " ++ env.goos ++ "/" ++ env.goarch),
        1, true⟩ := by
  unfold CheckForUpdate
  rw [h1, h2]
  simp only [Bool.not_true, Bool.false_eq_true, if_false]
  rw [h3]
  simp only [h4, h5, Bool.not_true, Bool.false_eq_true, if_false, h6]

/-- Closed instance of C4 (amended): on linux/amd64 with only a
windows/arm64 asset in the newer release, the check errors and the marker
write is its only filesystem effect. -/
theorem c4_no_asset_error_witness :
    CheckForUpdate noAssetEnv "1.0.0" "" =
      ⟨.checkError ("no binary found for platform " ++ "linux" ++ "/" ++ "amd64"),
        1, true⟩ :=
  c4_no_asset_error noAssetEnv "1.0.0" "" ⟨1, 0, 0, [], ""⟩ ⟨2, 0, 0, [], ""⟩
    noAssetRelease (by decide) (by decide) rfl (by decide) (by decide) (by decide)

/-- C5: with a checksum reference available (non-empty checksum URL) and a
recomputed hash differing from the trimmed reference, downloadAndReplace
aborts with the checksum-mismatch error before the live binary is touched
and before any backup is created: the binary's entry is unchanged and no
`<binary>.backup` file exists afterwards. -/
theorem c5_checksum_mismatch_aborts (env : UpgradeEnv) (url curl : String) (fs : FS)
    (bp e : String)
    (h1 : env.execPath = some e) (h2 : env.resolvedPath = some bp)
    (h3 : env.writePermOK = true) (h4 : env.downloadOK = true)
    (h5 : curl ≠ "") (h6 : env.checksumDownloadOK = true)
    (h7 : env.hash env.downloadedContent ≠ strTrim env.checksumContent)
    (h8 : env.tmpPath ≠ bp) (h9 : env.tmpPath ≠ bp ++ ".backup")
    (h10 : fsGet fs (bp ++ ".backup") = none) :
    (downloadAndReplace env url curl fs).err =
      some ("checksum verification failed: " ++ "checksum mismatch")
    ∧ fsGet (downloadAndReplace env url curl fs).fs bp = fsGet fs bp
    ∧ fsGet (downloadAndReplace env url curl fs).fs (bp ++ ".backup") = none := by
  have hres : downloadAndReplace env url curl fs =
      ⟨"", some ("checksum verification failed: " ++ "checksum mismatch"),
        fsRemove (fsSet (fsSet fs env.tmpPath ⟨"", 0o600⟩) env.tmpPath
          ⟨env.downloadedContent, 0o600⟩) env.tmpPath, true⟩ := by
    unfold downloadAndReplace verifyChecksum
    rw [h1, h2, h3, h4]
    simp [h5, h6, h7]
  rw [hres]
  refine ⟨rfl, ?_, ?_⟩
  · rw [fsGet_fsRemove_ne _ _ _ (Ne.symm h8),
      fsGet_fsSet_ne _ _ _ _ (Ne.symm h8), fsGet_fsSet_ne _ _ _ _ (Ne.symm h8)]
  · rw [fsGet_fsRemove_ne _ _ _ (Ne.symm h9),
      fsGet_fsSet_ne _ _ _ _ (Ne.symm h9), fsGet_fsSet_ne _ _ _ _ (Ne.symm h9)]
    exact h10

/-- A one-file filesystem holding the live binary. -/
def c5fs : FS := [("bin", ⟨"old", 0o755⟩)]

/-- An upgrade world whose downloaded bytes hash to a value different from
the served checksum. -/
def c5env : UpgradeEnv :=
  ⟨some "bin", some "bin", true, "tmp", true, "new", true, "goodhash\n",
    (fun _ => "badhash"), true, true, true⟩

/-- Closed instance of C5: the mismatch aborts, the binary entry is
untouched and no backup appears. -/
theorem c5_checksum_mismatch_aborts_witness :
    (downloadAndReplace c5env "u" "https://sum" c5fs).err =
      some ("checksum verification failed: " ++ "checksum mismatch")
    ∧ fsGet (downloadAndReplace c5env "u" "https://sum" c5fs).fs "bin" = fsGet c5fs "bin"
    ∧ fsGet (downloadAndReplace c5env "u" "https://sum" c5fs).fs ("bin" ++ ".backup") = none :=
  c5_checksum_mismatch_aborts c5env "u" "https://sum" c5fs "bin" "bin"
    rfl rfl rfl rfl (by decide) rfl (by decide) (by decide) (by decide) (by decide)

/-- After the backup copy succeeded, a failing rename leaves the backup in
place with the original's content and permissions and reports the backup
path next to the error. -/
theorem replaceBinary_rename_fail (env : UpgradeEnv) (bp : String) (fs : FS)
    (c : Bool) (orig : FileData)
    (h6 : env.chmodOK = true) (h7 : env.copyOK = true) (h9 : env.renameOK = false)
    (h8 : fsGet fs bp = some orig)
    (h10 : env.tmpPath ≠ bp) (h11 : env.tmpPath ≠ bp ++ ".backup") :
    (replaceBinary env bp fs c).backupPath = bp ++ ".backup"
    ∧ (replaceBinary env bp fs c).err = some "failed to replace binary"
    ∧ fsGet (replaceBinary env bp fs c).fs (bp ++ ".backup") =
        some ⟨orig.content, orig.perm⟩ := by
  have hg : fsGet (fsSet fs env.tmpPath ⟨env.downloadedContent, 0o755⟩) bp = some orig := by
    rw [fsGet_fsSet_ne _ _ _ _ (Ne.symm h10)]
    exact h8
  unfold replaceBinary
  rw [h6]
  simp only [Bool.not_true, Bool.false_eq_true, if_false]
  rw [hg, h7, h9]
  simp only [Bool.not_true, Bool.not_false, if_true, Bool.false_eq_true, if_false]
  refine ⟨trivial, trivial, ?_⟩
  rw [fsGet_fsRemove_ne _ _ _ (Ne.symm h11), fsGet_fsSet_eq]

/-- C6: if the atomic rename onto the live binary fails after the backup
was created, the backup file still exists with the pre-upgrade binary's
content and permission bits, and the backup path is returned to the caller
together with the error. -/
theorem c6_rename_failure_reports_backup (env : UpgradeEnv) (url curl : String)
    (fs : FS) (bp e : String) (orig : FileData)
    (h1 : env.execPath = some e) (h2 : env.resolvedPath = some bp)
    (h3 : env.writePermOK = true) (h4 : env.downloadOK = true)
    (h5 : curl = "" ∨ (env.checksumDownloadOK = true
        ∧ env.hash env.downloadedContent = strTrim env.checksumContent))
    (h6 : env.chmodOK = true) (h7 : env.copyOK = true)
    (h8 : fsGet fs bp = some orig) (h9 : env.renameOK = false)
    (h10 : env.tmpPath ≠ bp) (h11 : env.tmpPath ≠ bp ++ ".backup") :
    (downloadAndReplace env url curl fs).backupPath = bp ++ ".backup"
    ∧ (downloadAndReplace env url curl fs).err = some "failed to replace binary"
    ∧ fsGet (downloadAndReplace env url curl fs).fs (bp ++ ".backup") =
        some ⟨orig.content, orig.perm⟩ := by
  have h8a : fsGet (fsSet (fsSet fs env.tmpPath ⟨"", 0o600⟩) env.tmpPath
      ⟨env.downloadedContent, 0o600⟩) bp = some orig := by
    rw [fsGet_fsSet_ne _ _ _ _ (Ne.symm h10), fsGet_fsSet_ne _ _ _ _ (Ne.symm h10)]
    exact h8
  have hrb := replaceBinary_rename_fail env bp
    (fsSet (fsSet fs env.tmpPath ⟨"", 0o600⟩) env.tmpPath ⟨env.downloadedContent, 0o600⟩)
  have hred : ∀ c, downloadAndReplace env url curl fs =
      replaceBinary env bp (fsSet (fsSet fs env.tmpPath ⟨"", 0o600⟩) env.tmpPath
        ⟨env.downloadedContent, 0o600⟩) c →
      (downloadAndReplace env url curl fs).backupPath = bp ++ ".backup"
      ∧ (downloadAndReplace env url curl fs).err = some "failed to replace binary"
      ∧ fsGet (downloadAndReplace env url curl fs).fs (bp ++ ".backup") =
          some ⟨orig.content, orig.perm⟩ := by
    intro c heq
    rw [heq]
    exact hrb c orig h6 h7 h9 h8a h10 h11
  rcases h5 with h5 | ⟨h5a, h5b⟩
  · refine hred false ?_
    unfold downloadAndReplace
    rw [h1, h2, h3, h4]
    simp [h5]
  · by_cases hcurl : curl = ""
    · refine hred false ?_
      unfold downloadAndReplace
      rw [h1, h2, h3, h4]
      simp [hcurl]
    · refine hred true ?_
      unfold downloadAndReplace verifyChecksum
      rw [h1, h2, h3, h4]
      simp [hcurl, h5a, h5b]

/-- A filesystem with the live binary at "bin". -/
def c6fs : FS := [("bin", ⟨"old", 0o700⟩)]

/-- An upgrade world whose final rename fails. -/
def c6env : UpgradeEnv :=
  ⟨some "bin", some "bin", true, "tmp", true, "new", true, "",
    (fun _ => ""), true, true, false⟩

/-- Closed instance of C6: after the failed rename the backup holds the
old content with the old permission bits and is reported with the
error. -/
theorem c6_rename_failure_reports_backup_witness :
    (downloadAndReplace c6env "u" "" c6fs).backupPath = "bin" ++ ".backup"
    ∧ (downloadAndReplace c6env "u" "" c6fs).err = some "failed to replace binary"
    ∧ fsGet (downloadAndReplace c6env "u" "" c6fs).fs ("bin" ++ ".backup") =
        some ⟨"old", 0o700⟩ :=
  c6_rename_failure_reports_backup c6env "u" "" c6fs "bin" "bin" ⟨"old", 0o700⟩
    rfl rfl rfl rfl (Or.inl rfl) rfl rfl (by decide) rfl (by decide) (by decide)

/-- C7: for every call to CheckForUpdate, a throttle marker younger than
the configured interval makes the call return "no update" with no network
call and no write; an absent marker, or one older than the interval, lets
the check proceed past the throttle gate. -/
theorem c7_throttle_gate (env : CheckEnv) (cur ch : String) :
    (∀ t, env.markerMTime = some t → env.now - t < env.checkInterval →
      CheckForUpdate env cur ch = ⟨.noUpdate, 0, false⟩)
    ∧ ((env.markerMTime = none ∨
        ∃ t, env.markerMTime = some t ∧ env.now - t > env.checkInterval) →
      shouldCheckForUpdate env.markerMTime env.now env.checkInterval = true) := by
  constructor
  · intro t ht hlt
    have hs : shouldCheckForUpdate env.markerMTime env.now env.checkInterval = false := by
      simp [shouldCheckForUpdate, ht]
      omega
    simp [CheckForUpdate, hs]
  · rintro (hn | ⟨t, ht, hgt⟩)
    · simp [shouldCheckForUpdate, hn]
    · simp [shouldCheckForUpdate, ht]
      omega

/-- Closed instance of C7: a marker of age 1 with interval 5 skips the
check entirely, and a marker of age 9 with interval 5 lets it proceed. -/
theorem c7_throttle_gate_witness :
    CheckForUpdate ⟨⟨true, []⟩, some 9, 10, 5, "linux", "amd64", "o", "r"⟩ "1.0.0" "" =
      ⟨.noUpdate, 0, false⟩
    ∧ shouldCheckForUpdate (some 1) 10 5 = true :=
  ⟨(c7_throttle_gate ⟨⟨true, []⟩, some 9, 10, 5, "linux", "amd64", "o", "r"⟩ "1.0.0" "").1
      9 rfl (by decide),
   (c7_throttle_gate ⟨⟨true, []⟩, some 1, 10, 5, "linux", "amd64", "o", "r"⟩ "1.0.0" "").2
      (Or.inr ⟨1, rfl, by decide⟩)⟩

/-- The channel a pre-release string implies: its first dot-separated
segment when that is a known channel, otherwise stable. -/
def chanOfPre (p : String) : String :=
  match splitOnChar p '.' with
  | ch :: _ => if ch = "alpha" ∨ ch = "beta" ∨ ch = "rc" then ch else ""
  | [] => ""

/-- C8 counterexample: the claim puts a configured channel outside
{alpha, beta, rc, stable, ""} in its "every other case — the result is
stable" bucket, but determineChannel returns any non-empty, non-"stable"
configured channel verbatim: with a stable current version and configured
channel "nightly" the code yields "nightly", not "". -/
theorem c8_counterexample :
    determineChannel ⟨1, 0, 0, [], ""⟩ "nightly" = "nightly"
    ∧ ("nightly" ≠ "alpha" ∧ "nightly" ≠ "beta" ∧ "nightly" ≠ "rc"
       ∧ "nightly" ≠ "stable" ∧ "nightly" ≠ "") := by
  constructor
  · rfl
  · refine ⟨?_, ?_, ?_, ?_, ?_⟩ <;> decide

/-- C8 (amended): any configured channel other than "" and "stable" is
used verbatim (alpha, beta and rc in particular); when the configured
channel is "" or "stable", the result is the current version's first
pre-release segment when that is alpha, beta or rc, and "" (stable)
otherwise — so current 1.0.0-alpha.1 with no override yields "alpha" and
current 1.0.0 yields "". -/
theorem c8_channel_resolution (current : SemVer) (config : String) :
    (config ≠ "" ∧ config ≠ "stable" → determineChannel current config = config)
    ∧ ((config = "" ∨ config = "stable") →
        determineChannel current config = chanOfPre (preString current))
    ∧ (ParseVersion "1.0.0-alpha.1").map (fun v => determineChannel v "") = some "alpha"
    ∧ (ParseVersion "1.0.0").map (fun v => determineChannel v "") = some "" := by
  refine ⟨?_, ?_, by decide, by decide⟩
  · intro h
    simp [determineChannel, h]
  · intro h
    have hcond : ¬(config ≠ "" ∧ config ≠ "stable") := by
      rcases h with h | h <;> simp [h]
    by_cases hp : preString current = ""
    · rw [show determineChannel current config = "" by simp [determineChannel, hcond, hp]]
      rw [hp]
      decide
    · simp only [determineChannel, if_neg hcond, if_pos hp, chanOfPre]

/-- Closed instance of C8: an explicit "beta" override wins over an alpha
current version, and with no override a beta current version stays on
"beta". -/
theorem c8_channel_resolution_witness :
    determineChannel ⟨1, 0, 0, ["alpha", "1"], ""⟩ "beta" = "beta"
    ∧ determineChannel ⟨1, 0, 0, ["beta", "2"], ""⟩ "" = chanOfPre (preString ⟨1, 0, 0, ["beta", "2"], ""⟩) :=
  ⟨(c8_channel_resolution ⟨1, 0, 0, ["alpha", "1"], ""⟩ "beta").1 ⟨by decide, by decide⟩,
   (c8_channel_resolution ⟨1, 0, 0, ["beta", "2"], ""⟩ "").2.1 (Or.inl rfl)⟩

/-- C9: with identical major, minor and patch, a version without a
pre-release identifier is strictly newer than any version with one; and
two versions that differ only in build metadata compare equal. -/
theorem c9_version_ordering (m n p : Nat) (pre : List String) (b1 b2 b3 b4 : String)
    (v : SemVer) (h : pre ≠ []) :
    IsNewerThan ⟨m, n, p, [], b1⟩ ⟨m, n, p, pre, b2⟩ = true
    ∧ verEquals ⟨v.major, v.minor, v.patch, v.pre, b3⟩ ⟨v.major, v.minor, v.patch, v.pre, b4⟩ = true := by
  constructor
  · cases pre with
    | nil => exact absurd rfl h
    | cons x xs => simp [IsNewerThan, compareVer, compareNat_self]
  · cases hv : v.pre with
    | nil => simp [verEquals, compareVer, compareNat_self, hv]
    | cons x xs =>
      simp [verEquals, compareVer, compareNat_self, hv, comparePreLists_self]

/-- Closed instance of C9: 1.2.3 is newer than 1.2.3-beta, and
1.2.3+build123 equals 1.2.3+build456. -/
theorem c9_version_ordering_witness :
    IsNewerThan ⟨1, 2, 3, [], ""⟩ ⟨1, 2, 3, ["beta"], ""⟩ = true
    ∧ verEquals ⟨1, 2, 3, [], "build123"⟩ ⟨1, 2, 3, [], "build456"⟩ = true :=
  c9_version_ordering 1 2 3 ["beta"] "" "" "build123" "build456" ⟨1, 2, 3, [], "x"⟩
    (by decide)

/-- C10 (implicit): PerformUpgrade always hands downloadAndReplace an
empty checksum URL, so the checksum-verification branch never runs on an
actual upgrade, whatever the release offers and however the upgrade
ends. -/
theorem c10_upgrade_never_verifies_checksum (env : UpgradeEnv) (info : UpdateInfo)
    (confirmed : Bool) (fs : FS) :
    (PerformUpgrade env info confirmed fs).checksumChecked = false := by
  have hdr : ∀ url, (downloadAndReplace env url "" fs).checksumChecked = false := by
    intro url
    unfold downloadAndReplace
    cases hx : env.execPath with
    | none => rfl
    | some e =>
      cases hr : env.resolvedPath with
      | none => rfl
      | some bp =>
        by_cases hw : env.writePermOK <;> by_cases hd : env.downloadOK <;>
          simp [hw, hd, if_neg (fun hh : ("" : String) ≠ "" => hh rfl),
            replaceBinary_checked]
  unfold PerformUpgrade
  cases confirmed with
  | false => rfl
  | true => simpa using hdr info.downloadURL

end Tasklog
